import Mathlib

/-!
Verification of the pmx ABFE setup scripts
(`src/pmx/scripts/setup_abfe.py` and `src/pmx/scripts/workflows/utils.py`).

The scripts are linear: load a ligand and a protein structure/topology,
merge them into a complex, derive Boresch-style restraints, write output
files and optionally shell out to the external `gmx` tool to build
solvated boxes.  We embed the data the scripts manipulate (structures,
topologies, restraints), the pure merging steps, and the effectful main
routine as a trace-producing function over an explicit environment that
says which external invocations produce their declared output files.

Library routines of pmx that the scripts call but whose sources are not
part of this repository snapshot (`pmx.model.merge_models`,
`Model.renumber_atoms`, `pmx.forcefield.merge_atomtypes`,
`pmx.alchemy.AbsRestraints`, the `pmx.gmx` wrappers) are modelled from
the specification; each such definition is marked in its doc comment.
-/

/-- An atom of a molecular structure: an index (`id`) and 3-D coordinates.
Coordinates are modelled as integers; the claims checked here only compare
them for equality, never compute with their real-number values. -/
structure Atom where
  id : Nat
  x : Int
  y : Int
  z : Int
deriving DecidableEq, Repr

/-- A molecular structure (pmx `Model`): residues, each a list of atoms,
plus a periodic box (modelled as an opaque list of integers). -/
structure Model where
  residues : List (List Atom)
  box : List Int
deriving DecidableEq, Repr

/-- All atoms of a structure, in residue order. -/
def Model.atoms (m : Model) : List Atom := m.residues.flatten

/-- Modelled from the spec: `pmx.model.merge_models` (not in the repository
snapshot) concatenates the residues of the two structures, first argument
first; `setup_abfe.main` calls it as `merge_models(lig, pro)`. -/
def merge_models (m1 m2 : Model) : Model :=
  { residues := m1.residues ++ m2.residues, box := m1.box }

/-- Renumber a flat list of atoms with consecutive ids starting at `k`. -/
def renumberAtoms : Nat → List Atom → List Atom
  | _, [] => []
  | k, a :: as => { a with id := k } :: renumberAtoms (k + 1) as

/-- Renumber residue by residue, threading the running id. -/
def renumberRes : Nat → List (List Atom) → List (List Atom)
  | _, [] => []
  | k, r :: rs => renumberAtoms k r :: renumberRes (k + r.length) rs

/-- Modelled from the spec: `Model.renumber_atoms` (pmx.model is not in the
repository snapshot) renumbers all atom indices contiguously from 1. -/
def Model.renumber_atoms (m : Model) : Model :=
  { m with residues := renumberRes 1 m.residues }

/-- Lines 102-104 of `setup_abfe.py`: `com = merge_models(lig, pro)`,
`com.box = pro.box`, `com.renumber_atoms()`. -/
def mergedComplex (lig pro : Model) : Model :=
  Model.renumber_atoms { merge_models lig pro with box := pro.box }

theorem renumberAtoms_length (k : Nat) (as : List Atom) :
    (renumberAtoms k as).length = as.length := by
  induction as generalizing k with
  | nil => rfl
  | cons a as ih => simp [renumberAtoms, ih]

theorem renumberAtoms_map_id (k : Nat) (as : List Atom) :
    (renumberAtoms k as).map Atom.id = List.range' k as.length := by
  induction as generalizing k with
  | nil => rfl
  | cons a as ih => simp [renumberAtoms, List.range'_succ, ih]

theorem renumberRes_flatten_map_id (k : Nat) (rs : List (List Atom)) :
    (renumberRes k rs).flatten.map Atom.id = List.range' k rs.flatten.length := by
  induction rs generalizing k with
  | nil => rfl
  | cons r rs ih =>
      simp only [renumberRes, List.flatten_cons, List.map_append,
        renumberAtoms_map_id, ih, List.length_append]
      rw [Nat.add_comm r.length, List.range'_append_1]

theorem renumberRes_flatten_length (k : Nat) (rs : List (List Atom)) :
    (renumberRes k rs).flatten.length = rs.flatten.length := by
  have h := congrArg List.length (renumberRes_flatten_map_id k rs)
  rw [List.length_map, List.length_range'] at h
  exact h

/-- Concrete single-residue ligand structure used as evaluation input. -/
def sampleLig : Model :=
  { residues := [[⟨7, 0, 0, 0⟩, ⟨3, 4, 0, 0⟩]], box := [10, 10, 10] }

/-- Concrete two-residue protein structure used as evaluation input. -/
def samplePro : Model :=
  { residues := [[⟨5, 2, 3, 0⟩], [⟨9, 3, 1, 5⟩, ⟨2, 0, 1, 7⟩]], box := [20, 20, 20] }

/-- C1: for a ligand with N2 atoms and a protein with N1 atoms accepted by
the setup stage (single-residue ligand), the merged complex has exactly
N1+N2 atoms and its atom indices are renumbered contiguously 1..N1+N2. -/
theorem merged_complex_atoms (lig pro : Model) (_h : lig.residues.length = 1) :
    (mergedComplex lig pro).atoms.length = pro.atoms.length + lig.atoms.length ∧
    (mergedComplex lig pro).atoms.map Atom.id =
      List.range' 1 (pro.atoms.length + lig.atoms.length) := by
  have hmap := renumberRes_flatten_map_id 1 (lig.residues ++ pro.residues)
  have hlen := renumberRes_flatten_length 1 (lig.residues ++ pro.residues)
  constructor
  · simp only [mergedComplex, Model.atoms, Model.renumber_atoms, merge_models]
    rw [hlen]
    simp [Nat.add_comm]
  · simp only [mergedComplex, Model.atoms, Model.renumber_atoms, merge_models]
    rw [hmap]
    simp [Nat.add_comm]

/-- Witness: `merged_complex_atoms` evaluated at the concrete sample inputs. -/
theorem merged_complex_atoms_witness :
    (mergedComplex sampleLig samplePro).atoms.length =
        samplePro.atoms.length + sampleLig.atoms.length ∧
    (mergedComplex sampleLig samplePro).atoms.map Atom.id =
      List.range' 1 (samplePro.atoms.length + sampleLig.atoms.length) :=
  merged_complex_atoms sampleLig samplePro (by decide)

/-- A topology (pmx `Topology`): system name, include header, molecule list
(name, count), name-keyed atom types (parameters opaque), an optional
intermolecular-interactions (restraint) section, footer, and bookkeeping
flags used by `setup_abfe.main`. -/
structure Topology where
  name : String
  header : List String
  system : String
  molecules : List (String × Nat)
  atomtypes : List (String × String)
  ii : Option (List String)
  footer : List String
  has_posre : Bool
  is_itp : Bool
  forcefield : String
deriving DecidableEq, Repr

/-- Modelled from the spec: `pmx.forcefield.merge_atomtypes` (not in the
repository snapshot) forms the name-keyed union of the two atom-type
lists; later-defined types do not override earlier ones on a name
conflict. -/
def merge_atomtypes (a b : List (String × String)) : List (String × String) :=
  b.foldl (fun acc t => if acc.any (fun u => u.1 == t.1) then acc else acc ++ [t]) a

/-- A Boresch-style restraint specification: ligand and protein anchor atom
indices and geometric reference values. -/
structure Restraints where
  lig_atoms : List Nat
  pro_atoms : List Nat
  geo : List Int
deriving DecidableEq, Repr

/-- The linear congruential generator modelling the stochastic anchor-atom
selection. -/
def lcg (s : Nat) : Nat := (1103515245 * s + 12345) % 2147483648

/-- Draw three pseudo-random indices below `n`, returning the final
generator state. -/
def pickAnchors (s n : Nat) : List Nat × Nat :=
  let s1 := lcg s
  let s2 := lcg s1
  let s3 := lcg s2
  ([s1 % n, s2 % n, s3 % n], s3)

/-- Squared distance between two atoms (a geometric reference value). -/
def sqDist (a b : Atom) : Int :=
  (a.x - b.x) ^ 2 + (a.y - b.y) ^ 2 + (a.z - b.z) ^ 2

/-- Modelled from the spec: `pmx.alchemy.AbsRestraints` (not in the
repository snapshot) stochastically selects three protein and three ligand
anchor atoms, seeded by `seed`, and computes geometric reference values
between them. -/
def AbsRestraints (pro lig : Model) (seed : Nat) : Restraints :=
  let pa := pro.atoms
  let la := lig.atoms
  let d : Atom := ⟨0, 0, 0, 0⟩
  let pr := pickAnchors seed pa.length
  let lr := pickAnchors pr.2 la.length
  { pro_atoms := pr.1.map fun i => (pa.getD i d).id,
    lig_atoms := lr.1.map fun i => (la.getD i d).id,
    geo := [sqDist (pa.getD (pr.1.getD 0 0) d) (la.getD (lr.1.getD 0 0) d)] }

/-- Modelled from the spec: `Restraints.make_ii` serializes the restraint
specification as a topology-insertable intermolecular-interactions
block. -/
def Restraints.make_ii (r : Restraints) : List String :=
  "[ intermolecular_interactions ]" ::
    ((r.lig_atoms ++ r.pro_atoms).map toString ++ r.geo.map toString)

/-- Line 120 of `setup_abfe.py`:
`restraints = AbsRestraints(pro, lig, seed=args.seed)`.  When no seed is
given the selection is seeded from time/OS entropy, modelled as the
explicit `entropy` argument. -/
def deriveRestraints (pro lig : Model) (seed : Option Nat) (entropy : Nat) :
    Restraints :=
  AbsRestraints pro lig (seed.getD entropy)

/-- Lines 109-115 and 125-129 of `setup_abfe.py`: deep-copy the protein
topology, append the ligand include, rename the system, prepend the ligand
molecule with count 1, merge atom types, and attach the restraint section
only when not building. -/
def mkComplexTop (protop ligtop : Topology) (restraintII : List String)
    (build : Bool) : Topology :=
  let comtop := { protop with
    header := protop.header ++ ["#include \"ligand.itp\""],
    system := "Complex",
    molecules := (ligtop.name, 1) :: protop.molecules,
    atomtypes := merge_atomtypes ligtop.atomtypes protop.atomtypes }
  if build = false then { comtop with ii := some restraintII } else comtop

/-- C2: the merged complex topology's molecule list is the ligand entry
with count 1 followed by the protein topology's molecule list, unchanged
and in order. -/
theorem complex_top_molecules (protop ligtop : Topology)
    (restraintII : List String) (b : Bool) :
    (mkComplexTop protop ligtop restraintII b).molecules =
      (ligtop.name, 1) :: protop.molecules := by
  cases b <;> simp [mkComplexTop]

/-- C5: with a fixed seed, restraint derivation is independent of the
entropy source — two runs give identical anchor indices and geometric
values; with no seed the result may depend on the entropy drawn, so two
runs are not required to match. -/
theorem restraint_derivation_seed_deterministic :
    (∀ (pro lig : Model) (s e1 e2 : Nat),
        deriveRestraints pro lig (some s) e1 =
          deriveRestraints pro lig (some s) e2) ∧
    (∃ (pro lig : Model) (e1 e2 : Nat),
        deriveRestraints pro lig none e1 ≠ deriveRestraints pro lig none e2) := by
  constructor
  · intro pro lig s e1 e2
    rfl
  · exact ⟨samplePro, sampleLig, 0, 1, by decide⟩

/-- A filesystem snapshot: the files that exist, with their contents. -/
structure FS where
  files : List (String × String)
deriving DecidableEq, Repr

/-- `os.path.isfile`. -/
def FS.isfile (fs : FS) (p : String) : Bool := fs.files.any (fun f => f.1 == p)

/-- Content lookup (empty for a missing file). -/
def FS.read (fs : FS) (p : String) : String :=
  ((fs.files.find? (fun f => f.1 == p)).map Prod.snd).getD ""

/-- `shutil.copy(src, trg)`: modelled with an explicit `copyOk` flag saying
whether the copy call results in the target existing afterwards. -/
def shCopy (fs : FS) (src trg : String) (copyOk : Bool) : FS :=
  if copyOk then { files := (trg, fs.read src) :: fs.files } else fs

/-- `check_file_ready` (workflows/utils.py lines 11-26): raise
`OSError("Failed creating " + fname)` if `fname` is not a file. -/
def check_file_ready (fs : FS) (fname : String) : Except String Unit :=
  if fs.isfile fname = false then .error ("Failed creating " ++ fname)
  else .ok ()

/-- `copy_if_missing` (workflows/utils.py lines 28-45): copy `src` to `trg`
only when `trg` does not exist, then check the target was created. -/
def copy_if_missing (fs : FS) (src trg : String) (copyOk : Bool) :
    Except String FS :=
  if fs.isfile trg = false then
    let fs' := shCopy fs src trg copyOk
    match check_file_ready fs' trg with
    | .ok _ => .ok fs'
    | .error e => .error e
  else .ok fs

/-- Observable effects of one run of `setup_abfe.main`, in order. -/
inductive Event where
  | writeSummary : Event
  | writeFile : String → Bool → Event
  | copyFile : String → String → Event
  | mkdir : String → Event
  | chdir : String → Event
  | gmxCall : String → String → Event
deriving DecidableEq, Repr

/-- How a run of `setup_abfe.main` aborts. -/
inductive SetupError where
  | assertFailed : SetupError
  | missingOutput : String → SetupError
deriving DecidableEq, Repr

/-- The error text carried by a failure, matching
`check_file_ready`'s `OSError("Failed creating " + fname)`. -/
def SetupError.message : SetupError → String
  | .assertFailed => "AssertionError"
  | .missingOutput f => "Failed creating " ++ f

/-- Inputs of one run of `setup_abfe.main`, plus the environment: `ok i`
says whether the i-th external gmx invocation of the run produces its
declared output file (the complex build group is invocations 0-3, the
ligand group 4-7), and `entropy` models the time/OS entropy used when no
seed is given. -/
structure SetupInput where
  lig : Model
  pro : Model
  ligtop : Topology
  protop : Topology
  build : Bool
  singlebox : Bool
  seed : Option Nat
  entropy : Nat
  ok : Nat → Bool

/-- The writes performed by lines 122-136 of `setup_abfe.py` (restraint
summary, `complex.gro`, `ligand.itp`, `complex.top`); the flag on a
`writeFile` records whether the written topology carries the
intermolecular-interactions (restraint) section. -/
def preTrace (hasII : Bool) : List Event :=
  [.writeSummary, .writeFile "complex.gro" false, .writeFile "ligand.itp" false,
   .writeFile "complex.top" hasII]

/-- `setup_abfe.main` (lines 81-203) as a trace-producing function.  Each
external gmx invocation is modelled from the spec: the wrapper issues the
call and immediately checks that the declared output file appeared,
raising `missingOutput` naming it otherwise (the `pmx.gmx` sources are not
in the repository snapshot). -/
def runSetup (inp : SetupInput) : Except SetupError Unit × List Event :=
  if inp.lig.residues.length ≠ 1 then (.error .assertFailed, [])
  else
    let restraints :=
      deriveRestraints inp.pro inp.lig inp.seed inp.entropy
    let comtop :=
      mkComplexTop inp.protop inp.ligtop restraints.make_ii inp.build
    let pre := preTrace comtop.ii.isSome
    if inp.build = false then (.ok (), pre)
    else if inp.singlebox = true then (.ok (), pre)
    else
      let t0 := pre ++ [.mkdir "complex", .chdir "complex",
        .copyFile "../complex.gro" ".", .copyFile "../complex.top" ".",
        .copyFile "../ligand.itp" ".", .gmxCall "editconf" "editconf.gro"]
      if inp.ok 0 = false then (.error (.missingOutput "editconf.gro"), t0)
      else
        let t1 := t0 ++ [.gmxCall "solvate" "solvate.gro"]
        if inp.ok 1 = false then (.error (.missingOutput "solvate.gro"), t1)
        else
          let t2 := t1 ++ [.writeFile "genion.mdp" false,
            .gmxCall "grompp" "genion.tpr"]
          if inp.ok 2 = false then (.error (.missingOutput "genion.tpr"), t2)
          else
            let t3 := t2 ++ [.gmxCall "genion" "genion.gro"]
            if inp.ok 3 = false then (.error (.missingOutput "genion.gro"), t3)
            else
              let t4 := t3 ++ [.writeFile "complex.top" true, .chdir "../",
                .mkdir "ligand", .chdir "ligand",
                .writeFile "ligand.gro" false, .writeFile "ligand.top" false,
                .gmxCall "editconf" "editconf.gro"]
              if inp.ok 4 = false then
                (.error (.missingOutput "editconf.gro"), t4)
              else
                let t5 := t4 ++ [.gmxCall "solvate" "solvate.gro"]
                if inp.ok 5 = false then
                  (.error (.missingOutput "solvate.gro"), t5)
                else
                  let t6 := t5 ++ [.writeFile "genion.mdp" false,
                    .gmxCall "grompp" "genion.tpr"]
                  if inp.ok 6 = false then
                    (.error (.missingOutput "genion.tpr"), t6)
                  else
                    let t7 := t6 ++ [.gmxCall "genion" "genion.gro"]
                    if inp.ok 7 = false then
                      (.error (.missingOutput "genion.gro"), t7)
                    else (.ok (), t7 ++ [.chdir "../"])

theorem mkComplexTop_ii_build (protop ligtop : Topology) (r : List String) :
    (mkComplexTop protop ligtop r true).ii = protop.ii := by
  simp [mkComplexTop]

theorem mkComplexTop_ii_nobuild (protop ligtop : Topology) (r : List String) :
    (mkComplexTop protop ligtop r false).ii = some r := by
  simp [mkComplexTop]

/-- Concrete ligand topology used as evaluation input. -/
def sampleLigTop : Topology :=
  { name := "LIG", header := [], system := "Ligand",
    molecules := [("LIG", 1)], atomtypes := [("c3", "pL")], ii := none,
    footer := [], has_posre := false, is_itp := true,
    forcefield := "amber99sb-star-ildn-mut" }

/-- Concrete protein topology used as evaluation input. -/
def sampleProTop : Topology :=
  { name := "Protein", header := ["#include \"forcefield.itp\""],
    system := "Protein in water",
    molecules := [("Protein", 1), ("SOL", 3)],
    atomtypes := [("opls_1", "pP"), ("c3", "pQ")], ii := none,
    footer := [], has_posre := true, is_itp := false,
    forcefield := "amber99sb-star-ildn-mut" }

/-- A concrete setup-stage input with the given flags and gmx environment. -/
def mkInput (b sb : Bool) (ok : Nat → Bool) : SetupInput :=
  { lig := sampleLig, pro := samplePro, ligtop := sampleLigTop,
    protop := sampleProTop, build := b, singlebox := sb, seed := some 42,
    entropy := 0, ok := ok }

/-- C3: a ligand structure with two or more residues makes the setup stage
fail immediately (the `assert len(lig.residues) == 1` at line 90), before
any output file is written: the run aborts with an assertion failure and
the event trace is empty. -/
theorem setup_fails_on_multi_residue_ligand (inp : SetupInput)
    (h : 2 ≤ inp.lig.residues.length) :
    runSetup inp = (.error .assertFailed, []) := by
  have hne : inp.lig.residues.length ≠ 1 := by omega
  simp [runSetup, hne]

/-- Witness: `setup_fails_on_multi_residue_ligand` at a concrete input
whose ligand has two residues. -/
theorem setup_fails_on_multi_residue_ligand_witness :
    runSetup { mkInput false false (fun _ => true) with lig := samplePro } =
      (.error .assertFailed, []) :=
  setup_fails_on_multi_residue_ligand
    { mkInput false false (fun _ => true) with lig := samplePro } (by decide)

/-- C9: with both the build flag and the singlebox flag set, the build
branch is a no-op (`pass`): the run succeeds, the trace is exactly the
four pre-branch writes (restraint summary, complex.gro, ligand.itp,
complex.top), and it contains no mkdir, no chdir, no file copy and no
external gmx invocation. -/
theorem singlebox_build_is_noop (inp : SetupInput)
    (h1 : inp.lig.residues.length = 1) (hb : inp.build = true)
    (hs : inp.singlebox = true) (hp : inp.protop.ii = none) :
    runSetup inp = (.ok (), preTrace false) ∧
    (runSetup inp).2.all (fun e =>
      match e with
      | .mkdir _ => false
      | .chdir _ => false
      | .copyFile _ _ => false
      | .gmxCall _ _ => false
      | _ => true) = true := by
  have hr : runSetup inp = (.ok (), preTrace false) := by
    simp [runSetup, h1, hb, hs, mkComplexTop_ii_build, hp]
  refine ⟨hr, ?_⟩
  rw [hr]
  decide

/-- Witness: `singlebox_build_is_noop` at a concrete input with both flags
set. -/
theorem singlebox_build_is_noop_witness :
    runSetup (mkInput true true (fun _ => true)) = (.ok (), preTrace false) ∧
    (runSetup (mkInput true true (fun _ => true))).2.all (fun e =>
      match e with
      | .mkdir _ => false
      | .chdir _ => false
      | .copyFile _ _ => false
      | .gmxCall _ _ => false
      | _ => true) = true :=
  singlebox_build_is_noop (mkInput true true (fun _ => true))
    (by decide) rfl rfl rfl

/-- Declared output file of each external gmx invocation of the build
branch, in invocation order (complex group then ligand group). -/
def gmxOutputs : List String :=
  ["editconf.gro", "solvate.gro", "genion.tpr", "genion.gro",
   "editconf.gro", "solvate.gro", "genion.tpr", "genion.gro"]

/-- Tool of each external gmx invocation of the build branch, in
invocation order. -/
def gmxTools : List String :=
  ["editconf", "solvate", "grompp", "genion",
   "editconf", "solvate", "grompp", "genion"]

/-- The full event trace of a standard (separate-boxes) build run in which
every external invocation produces its output; `b` records whether the
pre-build complex topology carried an intermolecular-interactions
section. -/
def fullBuildTrace (b : Bool) : List Event :=
  preTrace b ++
  [.mkdir "complex", .chdir "complex",
   .copyFile "../complex.gro" ".", .copyFile "../complex.top" ".",
   .copyFile "../ligand.itp" ".",
   .gmxCall "editconf" "editconf.gro",
   .gmxCall "solvate" "solvate.gro",
   .writeFile "genion.mdp" false,
   .gmxCall "grompp" "genion.tpr",
   .gmxCall "genion" "genion.gro",
   .writeFile "complex.top" true, .chdir "../",
   .mkdir "ligand", .chdir "ligand",
   .writeFile "ligand.gro" false, .writeFile "ligand.top" false,
   .gmxCall "editconf" "editconf.gro",
   .gmxCall "solvate" "solvate.gro",
   .writeFile "genion.mdp" false,
   .gmxCall "grompp" "genion.tpr",
   .gmxCall "genion" "genion.gro",
   .chdir "../"]

/-- Length of the trace prefix produced when the i-th external invocation
is the first one that fails to create its output. -/
def buildCut (i : Nat) : Nat := [10, 11, 13, 14, 21, 22, 24, 25].getD i 26

/-- The event trace of a standard build run whose i-th external invocation
is the first to fail. -/
def buildTrace (b : Bool) (i : Nat) : List Event :=
  (fullBuildTrace b).take (buildCut i)

/-- Case analysis of a standard (separate-boxes) build run: either some
external invocation fails to create its output, the run aborts naming
that file and the trace stops at that invocation, or all invocations
succeed and the run completes with the full trace. -/
theorem runSetup_build_cases (inp : SetupInput)
    (h1 : inp.lig.residues.length = 1) (hb : inp.build = true)
    (hs : inp.singlebox = false) :
    (∃ i, i < 8 ∧ inp.ok i = false ∧
        runSetup inp = (.error (.missingOutput (gmxOutputs.getD i "")),
          buildTrace inp.protop.ii.isSome i)) ∨
    runSetup inp = (.ok (), fullBuildTrace inp.protop.ii.isSome) := by
  cases k0 : inp.ok 0 with
  | false =>
      exact Or.inl ⟨0, by omega, k0, by
        simp [runSetup, h1, hb, hs, k0, preTrace, buildTrace, buildCut,
          fullBuildTrace, gmxOutputs, mkComplexTop_ii_build]⟩
  | true =>
  cases k1 : inp.ok 1 with
  | false =>
      exact Or.inl ⟨1, by omega, k1, by
        simp [runSetup, h1, hb, hs, k0, k1, preTrace, buildTrace, buildCut,
          fullBuildTrace, gmxOutputs, mkComplexTop_ii_build]⟩
  | true =>
  cases k2 : inp.ok 2 with
  | false =>
      exact Or.inl ⟨2, by omega, k2, by
        simp [runSetup, h1, hb, hs, k0, k1, k2, preTrace, buildTrace,
          buildCut, fullBuildTrace, gmxOutputs, mkComplexTop_ii_build]⟩
  | true =>
  cases k3 : inp.ok 3 with
  | false =>
      exact Or.inl ⟨3, by omega, k3, by
        simp [runSetup, h1, hb, hs, k0, k1, k2, k3, preTrace, buildTrace,
          buildCut, fullBuildTrace, gmxOutputs, mkComplexTop_ii_build]⟩
  | true =>
  cases k4 : inp.ok 4 with
  | false =>
      exact Or.inl ⟨4, by omega, k4, by
        simp [runSetup, h1, hb, hs, k0, k1, k2, k3, k4, preTrace,
          buildTrace, buildCut, fullBuildTrace, gmxOutputs,
          mkComplexTop_ii_build]⟩
  | true =>
  cases k5 : inp.ok 5 with
  | false =>
      exact Or.inl ⟨5, by omega, k5, by
        simp [runSetup, h1, hb, hs, k0, k1, k2, k3, k4, k5, preTrace,
          buildTrace, buildCut, fullBuildTrace, gmxOutputs,
          mkComplexTop_ii_build]⟩
  | true =>
  cases k6 : inp.ok 6 with
  | false =>
      exact Or.inl ⟨6, by omega, k6, by
        simp [runSetup, h1, hb, hs, k0, k1, k2, k3, k4, k5, k6, preTrace,
          buildTrace, buildCut, fullBuildTrace, gmxOutputs,
          mkComplexTop_ii_build]⟩
  | true =>
  cases k7 : inp.ok 7 with
  | false =>
      exact Or.inl ⟨7, by omega, k7, by
        simp [runSetup, h1, hb, hs, k0, k1, k2, k3, k4, k5, k6, k7,
          preTrace, buildTrace, buildCut, fullBuildTrace, gmxOutputs,
          mkComplexTop_ii_build]⟩
  | true =>
      exact Or.inr (by
        simp [runSetup, h1, hb, hs, k0, k1, k2, k3, k4, k5, k6, k7,
          preTrace, fullBuildTrace, mkComplexTop_ii_build])

/-- Apply one event to the current-working-directory stack:
`os.chdir('../')` pops, any other `os.chdir(d)` pushes `d`. -/
def applyCwd (cwd : List String) : Event → List String
  | .chdir d => if d = "../" then cwd.tail else d :: cwd
  | _ => cwd

/-- The working directory after a trace, starting from `start`. -/
def finalCwd (start : List String) (tr : List Event) : List String :=
  tr.foldl applyCwd start

/-- C7: a standard (separate-boxes) build run that completes changes into
and back out of each per-system directory, so the working directory at the
end equals the working directory at the start. -/
theorem build_restores_cwd (inp : SetupInput) (start : List String)
    (h1 : inp.lig.residues.length = 1) (hb : inp.build = true)
    (hs : inp.singlebox = false)
    (hok : (runSetup inp).1 = .ok ()) :
    finalCwd start (runSetup inp).2 = start := by
  rcases runSetup_build_cases inp h1 hb hs with ⟨i, hi, hf, heq⟩ | heq
  · rw [heq] at hok
    simp at hok
  · rw [heq]
    rfl

/-- Witness: `build_restores_cwd` on a completing concrete build run. -/
theorem build_restores_cwd_witness :
    finalCwd ["user", "home"]
        (runSetup (mkInput true false (fun _ => true))).2 =
      ["user", "home"] :=
  build_restores_cwd (mkInput true false (fun _ => true)) ["user", "home"]
    (by decide) rfl rfl rfl

/-- C6: if the i-th external gmx invocation of the standard build is the
first to fail to produce its declared output file, the run aborts with an
error naming that exact file (`OSError("Failed creating " + fname)` via
`check_file_ready`), and nothing executes after that invocation: the
failing call is the last event of the trace. -/
theorem gmx_failure_aborts (inp : SetupInput) (i : Nat) (hi : i < 8)
    (h1 : inp.lig.residues.length = 1) (hb : inp.build = true)
    (hs : inp.singlebox = false)
    (hpre : ∀ j, j < i → inp.ok j = true) (hf : inp.ok i = false) :
    (runSetup inp).1 = .error (.missingOutput (gmxOutputs.getD i "")) ∧
    SetupError.message (.missingOutput (gmxOutputs.getD i "")) =
      "Failed creating " ++ gmxOutputs.getD i "" ∧
    (runSetup inp).2.getLast? =
      some (.gmxCall (gmxTools.getD i "") (gmxOutputs.getD i "")) := by
  interval_cases i
  · refine ⟨?_, rfl, ?_⟩ <;>
      simp [runSetup, h1, hb, hs, hf, preTrace, gmxOutputs, gmxTools]
  · refine ⟨?_, rfl, ?_⟩ <;>
      simp [runSetup, h1, hb, hs, hf, hpre 0 (by omega), preTrace,
        gmxOutputs, gmxTools]
  · refine ⟨?_, rfl, ?_⟩ <;>
      simp [runSetup, h1, hb, hs, hf, hpre 0 (by omega), hpre 1 (by omega),
        preTrace, gmxOutputs, gmxTools]
  · refine ⟨?_, rfl, ?_⟩ <;>
      simp [runSetup, h1, hb, hs, hf, hpre 0 (by omega), hpre 1 (by omega),
        hpre 2 (by omega), preTrace, gmxOutputs, gmxTools]
  · refine ⟨?_, rfl, ?_⟩ <;>
      simp [runSetup, h1, hb, hs, hf, hpre 0 (by omega), hpre 1 (by omega),
        hpre 2 (by omega), hpre 3 (by omega), preTrace, gmxOutputs, gmxTools]
  · refine ⟨?_, rfl, ?_⟩ <;>
      simp [runSetup, h1, hb, hs, hf, hpre 0 (by omega), hpre 1 (by omega),
        hpre 2 (by omega), hpre 3 (by omega), hpre 4 (by omega), preTrace,
        gmxOutputs, gmxTools]
  · refine ⟨?_, rfl, ?_⟩ <;>
      simp [runSetup, h1, hb, hs, hf, hpre 0 (by omega), hpre 1 (by omega),
        hpre 2 (by omega), hpre 3 (by omega), hpre 4 (by omega),
        hpre 5 (by omega), preTrace, gmxOutputs, gmxTools]
  · refine ⟨?_, rfl, ?_⟩ <;>
      simp [runSetup, h1, hb, hs, hf, hpre 0 (by omega), hpre 1 (by omega),
        hpre 2 (by omega), hpre 3 (by omega), hpre 4 (by omega),
        hpre 5 (by omega), hpre 6 (by omega), preTrace, gmxOutputs, gmxTools]

/-- Witness: `gmx_failure_aborts` where the third invocation (grompp of
the complex group) fails to create `genion.tpr`. -/
theorem gmx_failure_aborts_witness :
    (runSetup (mkInput true false (fun n => decide (n < 2)))).1 =
      .error (.missingOutput (gmxOutputs.getD 2 "")) ∧
    SetupError.message (.missingOutput (gmxOutputs.getD 2 "")) =
      "Failed creating " ++ gmxOutputs.getD 2 "" ∧
    (runSetup (mkInput true false (fun n => decide (n < 2)))).2.getLast? =
      some (.gmxCall (gmxTools.getD 2 "") (gmxOutputs.getD 2 "")) :=
  gmx_failure_aborts (mkInput true false (fun n => decide (n < 2))) 2
    (by omega) (by decide) rfl rfl
    (fun j hj => decide_eq_true hj) rfl

/-- C4: when the build flag is absent the written complex topology carries
the restraint (intermolecular-interactions) section; when it is present,
the complex.top written before building does not carry it, that write
precedes every external invocation, and a complex topology carrying the
section is written only after the complex build group's external
invocations complete. -/
theorem complex_top_restraint_section (inp : SetupInput)
    (h1 : inp.lig.residues.length = 1) (hp : inp.protop.ii = none) :
    (inp.build = false →
      Event.writeFile "complex.top" true ∈ (runSetup inp).2) ∧
    (inp.build = true →
      Event.writeFile "complex.top" false ∈ (runSetup inp).2 ∧
      (runSetup inp).2.indexOf (Event.writeFile "complex.top" false) <
        (runSetup inp).2.indexOf (Event.gmxCall "editconf" "editconf.gro") ∧
      (Event.writeFile "complex.top" true ∈ (runSetup inp).2 →
        (runSetup inp).2.indexOf (Event.gmxCall "genion" "genion.gro") <
          (runSetup inp).2.indexOf (Event.writeFile "complex.top" true))) := by
  constructor
  · intro hb
    have hr : runSetup inp = (.ok (), preTrace true) := by
      simp [runSetup, h1, hb, mkComplexTop_ii_nobuild]
    rw [hr]
    decide
  · intro hb
    cases hsb : inp.singlebox with
    | true =>
        have hr : runSetup inp = (.ok (), preTrace false) := by
          simp [runSetup, h1, hb, hsb, mkComplexTop_ii_build, hp]
        rw [hr]
        decide
    | false =>
        rcases runSetup_build_cases inp h1 hb hsb with ⟨i, hi, hf, heq⟩ | heq
        · rw [heq, hp]
          interval_cases i <;> decide
        · rw [heq, hp]
          decide

/-- Witness: `complex_top_restraint_section` at a concrete no-build
input. -/
theorem complex_top_restraint_section_witness :
    ((mkInput false false (fun _ => true)).build = false →
      Event.writeFile "complex.top" true ∈
        (runSetup (mkInput false false (fun _ => true))).2) ∧
    ((mkInput false false (fun _ => true)).build = true →
      Event.writeFile "complex.top" false ∈
        (runSetup (mkInput false false (fun _ => true))).2 ∧
      (runSetup (mkInput false false (fun _ => true))).2.indexOf
          (Event.writeFile "complex.top" false) <
        (runSetup (mkInput false false (fun _ => true))).2.indexOf
          (Event.gmxCall "editconf" "editconf.gro") ∧
      (Event.writeFile "complex.top" true ∈
          (runSetup (mkInput false false (fun _ => true))).2 →
        (runSetup (mkInput false false (fun _ => true))).2.indexOf
            (Event.gmxCall "genion" "genion.gro") <
          (runSetup (mkInput false false (fun _ => true))).2.indexOf
            (Event.writeFile "complex.top" true))) :=
  complex_top_restraint_section (mkInput false false (fun _ => true))
    (by decide) rfl

/-- The declared choices of the workflow driver's `-bt` box-type flag
(workflows/utils.py lines 88-94). -/
def btChoices : List String :=
  ["triclinic", "cubic", "dodecahedron", "octahedron"]

/-- The `-bt` option validation: argparse accepts a value exactly when it
is among the declared choices; any other string makes option parsing fail
(argparse's documented `choices` behaviour, with the choice list taken
from the source). -/
def parseBt (v : String) : Option String :=
  if v ∈ btChoices then some v else none

/-- C8: the box-type flag accepts exactly `triclinic`, `cubic`,
`dodecahedron` and `octahedron`; every other string is rejected by option
parsing. -/
theorem bt_choices_exact (v : String) :
    parseBt v ≠ none ↔
      v = "triclinic" ∨ v = "cubic" ∨ v = "dodecahedron" ∨
        v = "octahedron" := by
  by_cases h : v ∈ btChoices
  · simp only [parseBt, if_pos h]
    simp only [ne_eq, reduceCtorEq, not_false_iff, true_iff]
    simpa [btChoices] using h
  · simp only [parseBt, if_neg h]
    simp only [ne_eq, not_true, false_iff]
    simpa [btChoices] using h

/-- C10: `copy_if_missing` leaves an existing target untouched; for a
missing target it copies the source over and raises an OSError naming the
target when the target still does not exist afterwards. -/
theorem copy_if_missing_spec (fs : FS) (src trg : String) (copyOk : Bool) :
    (fs.isfile trg = true → copy_if_missing fs src trg copyOk = .ok fs) ∧
    (fs.isfile trg = false →
      (copyOk = true →
        copy_if_missing fs src trg copyOk = .ok (shCopy fs src trg true) ∧
        (shCopy fs src trg true).read trg = fs.read src) ∧
      (copyOk = false →
        copy_if_missing fs src trg copyOk =
          .error ("Failed creating " ++ trg))) := by
  have hsc : ∀ s t, (shCopy fs s t true).isfile t = true := by
    intro s t
    simp [shCopy, FS.isfile]
  refine ⟨fun h => ?_, fun h => ⟨fun hc => ⟨?_, ?_⟩, fun hc => ?_⟩⟩
  · simp [copy_if_missing, h]
  · simp [copy_if_missing, check_file_ready, h, hc, hsc]
  · simp [shCopy, FS.read]
  · simp [copy_if_missing, check_file_ready, shCopy, h, hc]

/-- Witness: `copy_if_missing_spec` on a concrete filesystem, once with
the target present, once with it absent and the copy succeeding, and once
with it absent and the copy failing. -/
theorem copy_if_missing_spec_witness :
    copy_if_missing ⟨[("a.txt", "A")]⟩ "a.txt" "a.txt" true =
        .ok ⟨[("a.txt", "A")]⟩ ∧
    copy_if_missing ⟨[("a.txt", "A")]⟩ "a.txt" "b.txt" true =
        .ok (shCopy ⟨[("a.txt", "A")]⟩ "a.txt" "b.txt" true) ∧
    copy_if_missing ⟨[("a.txt", "A")]⟩ "a.txt" "b.txt" false =
        .error ("Failed creating " ++ "b.txt") :=
  ⟨(copy_if_missing_spec ⟨[("a.txt", "A")]⟩ "a.txt" "a.txt" true).1
      (by decide),
   ((copy_if_missing_spec ⟨[("a.txt", "A")]⟩ "a.txt" "b.txt" true).2
      (by decide)).1 rfl |>.1,
   ((copy_if_missing_spec ⟨[("a.txt", "A")]⟩ "a.txt" "b.txt" false).2
      (by decide)).2 rfl⟩
